import Mathlib

/-!
Verification of the AVA integration-test harness in
`src/sandbox-ts/src/main.ava.ts` (repository `social-network-demo`).

The harness spins up a fresh sandbox `Worker` per test case
(`test.beforeEach`), creates a sub-account named `test-account` under the
sandbox root, deploys the contract binary taken from `process.argv[2]`,
runs the test body, and tears the worker down in `test.afterEach.always`,
catching and logging teardown errors.

The contract itself (`add_post`, `get_all_posts`) is not part of the
repository sources; its behaviour is modelled from the specification.
-/

namespace SocialNetworkDemo

/-- Argument payload of an `add_post` call, exactly the shape built in the
tests: all four fields are strings, `tags` a comma-separated string. -/
structure AddPostArgs where
  title : String
  description : String
  tags : String
  media : String
deriving DecidableEq, Repr

/-- Modelled from the spec: a stored post record as returned by the
contract — `title`, `description`, `media` strings, `tags` an ordered
collection of tag strings (the spec's scenario A requires the supplied
comma-separated `tags` string to come back as an indexable collection
whose third element is the third comma-separated component). -/
structure Post where
  title : String
  description : String
  tags : List String
  media : String
deriving DecidableEq, Repr

/-- Split a character list at commas, accumulating the current component
in reverse. -/
def splitCommaAux : List Char → List Char → List String
  | [], acc => [String.mk acc.reverse]
  | c :: cs, acc =>
    if c = ',' then String.mk acc.reverse :: splitCommaAux cs []
    else splitCommaAux cs (c :: acc)

/-- Split a string into its comma-separated components. -/
def splitComma (s : String) : List String :=
  splitCommaAux s.data []

/-- Modelled from the spec: the post record the contract builds from an
`add_post` payload; string fields are taken verbatim and the
comma-separated `tags` string is split into the tag collection. -/
def mkPost (args : AddPostArgs) : Post :=
  { title := args.title
    description := args.description
    tags := splitComma args.tags
    media := args.media }

/-- Modelled from the spec: the contract state is the ordered list of
stored posts; `add_post` appends the new record and returns it. -/
def add_post (state : List Post) (args : AddPostArgs) : List Post × Post :=
  let p := mkPost args
  (state ++ [p], p)

/-- Modelled from the spec: the read-only view `get_all_posts` returns all
stored records as an ordered collection of index/record pairs. -/
def get_all_posts (state : List Post) : List (Nat × Post) :=
  state.enum

/-- Issue a sequence of `add_post` calls in program order, threading the
contract state. -/
def addPosts (state : List Post) (ps : List AddPostArgs) : List Post :=
  ps.foldl (fun s p => (add_post s p).1) state

/-! ## Field-level view of payloads and results

`add_post` payloads and post records are dynamic (JSON-like) values in the
source; to compare a supplied field with a returned field we reify field
names and field values. -/

/-- A dynamic field value: a string or a list of strings. -/
inductive FieldValue
  | str (s : String)
  | strList (l : List String)
deriving DecidableEq, Repr

/-- The field names appearing in `add_post` payloads and post records. -/
inductive Field
  | title
  | description
  | tags
  | media
deriving DecidableEq, Repr

/-- The value an `add_post` payload supplies for a field. -/
def AddPostArgs.fieldValue (a : AddPostArgs) : Field → FieldValue
  | .title => .str a.title
  | .description => .str a.description
  | .tags => .str a.tags
  | .media => .str a.media

/-- The value a returned post record holds for a field. -/
def Post.fieldValue (p : Post) : Field → FieldValue
  | .title => .str p.title
  | .description => .str p.description
  | .tags => .strList p.tags
  | .media => .str p.media

/-! ## Sandbox isolation model

Modelled from the spec: each `Worker` owns one isolated sandbox instance;
a fresh worker starts with empty contract state, and calls issued through
one worker touch only that worker's sandbox. The global picture is a map
from worker ids to contract states. -/

/-- The states of all sandbox instances, keyed by worker id. -/
def SandboxStates := Nat → List Post

/-- Modelled from the spec: `Worker.init` starts a fresh, empty sandbox
for the given worker id. -/
def workerInitState (g : SandboxStates) (wid : Nat) : SandboxStates :=
  fun i => if i = wid then [] else g i

/-- A mutating `add_post` call issued through the worker `wid`: only that
worker's sandbox state changes. -/
def callAddPost (g : SandboxStates) (wid : Nat) (args : AddPostArgs) :
    SandboxStates :=
  fun i => if i = wid then (add_post (g i) args).1 else g i

/-- A `get_all_posts` view issued through the worker `wid`. -/
def viewAllPosts (g : SandboxStates) (wid : Nat) : List (Nat × Post) :=
  get_all_posts (g wid)

/-! ## Harness lifecycle model (from `src/sandbox-ts/src/main.ava.ts`)

The per-test lifecycle: `test.beforeEach` awaits `Worker.init()`, then
`root.createSubAccount("test-account")`, then
`contract.deploy(process.argv[2])`, and only then stores the handles into
`t.context`; `test.afterEach.always` awaits
`t.context.worker.tearDown().catch(log)`. The external collaborators
(`Worker.init`, `createSubAccount`, `deploy`, `tearDown`) may each succeed
or fail; a `TestEnv` fixes their outcomes for one test run. -/

/-- A sandbox worker handle. -/
structure Worker where
  id : Nat
deriving DecidableEq, Repr

/-- The sandbox root account id (the concrete id is owned by the external
sandbox; only its distinctness from the sub-account matters). -/
def rootAccountId : String := "test.near"

/-- The sub-account name passed to `createSubAccount` at line 15. -/
def subAccountName : String := "test-account"

/-- The full account id of the contract sub-account created under root. -/
def contractAccountId : String := subAccountName ++ "." ++ rootAccountId

/-- Outcomes of the external collaborators and the process arguments for
one test run. -/
structure TestEnv where
  initResult : Except String Worker
  createSubAccountResult : Except String Unit
  deployResult : Except String Unit
  tearDownResult : Except String Unit
  argv : List String

/-- The per-test context saved into `t.context` at lines 19-21, available
to the body and the teardown hook only once `beforeEach` completed. -/
structure TestContext where
  worker : Worker
  rootId : String
  contractId : String
deriving DecidableEq, Repr

/-- Observable events of one test run, in program order. -/
inductive Event
  | workerInit (w : Worker)
  | createSubAccount (name : String)
  | deploy (target : String) (path : Option String)
  | saveContext
  | runBody
  | tearDownCall (w : Worker)
deriving DecidableEq, Repr

/-- Result of the `beforeEach` hook: the saved context (`none` when a step
threw, leaving `t.context.worker` unset), the error if any, the workers
created, and the event trace. -/
structure BeforeResult where
  ctx : Option TestContext
  err : Option String
  created : List Worker
  trace : List Event
deriving Repr

/-- The `test.beforeEach` hook (lines 9-22): init the worker, create the
sub-account, deploy `process.argv[2]`, then save the context. Each await
propagates its error, aborting the hook at that point. -/
def beforeEach (env : TestEnv) : BeforeResult :=
  match env.initResult with
  | .error e => { ctx := none, err := some e, created := [], trace := [] }
  | .ok w =>
    match env.createSubAccountResult with
    | .error e =>
      { ctx := none, err := some e, created := [w]
        trace := [.workerInit w, .createSubAccount subAccountName] }
    | .ok _ =>
      let path := env.argv.get? 2
      match env.deployResult with
      | .error e =>
        { ctx := none, err := some e, created := [w]
          trace := [.workerInit w, .createSubAccount subAccountName,
                    .deploy contractAccountId path] }
      | .ok _ =>
        { ctx := some { worker := w, rootId := rootAccountId,
                        contractId := contractAccountId }
          err := none, created := [w]
          trace := [.workerInit w, .createSubAccount subAccountName,
                    .deploy contractAccountId path, .saveContext] }

/-- Result of the `afterEach.always` hook: the hook's own error (if it
threw), the workers whose `tearDown` was called, and the console log. -/
structure AfterResult where
  err : Option String
  tornDown : List Worker
  logs : List String
deriving Repr

/-- The `test.afterEach.always` hook (lines 24-29): reads
`t.context.worker` — when `beforeEach` failed before line 19, the context
is unset and the member access throws a `TypeError` before any `tearDown`
is called; otherwise `tearDown()` is awaited and a rejection is caught and
logged, never rethrown. -/
def afterEachAlways (ctxWorker : Option Worker)
    (tearDownResult : Except String Unit) : AfterResult :=
  match ctxWorker with
  | none =>
    { err := some "TypeError: Cannot read properties of undefined"
      tornDown := [], logs := [] }
  | some w =>
    match tearDownResult with
    | .ok _ => { err := none, tornDown := [w], logs := [] }
    | .error e =>
      { err := none, tornDown := [w]
        logs := ["Failed to stop the Sandbox: " ++ e] }

/-- Pass/fail outcome of a test case as the runner reports it. -/
inductive Outcome
  | pass
  | fail
deriving DecidableEq, Repr

/-- Full report of one test run. -/
structure TestReport where
  outcome : Outcome
  bodyRan : Bool
  created : List Worker
  tornDown : List Worker
  logs : List String
  trace : List Event
deriving Repr

/-- One AVA test run: `beforeEach`, then the body when setup succeeded,
then `afterEach.always` unconditionally. The case fails when the
`beforeEach` hook, the body, or the `afterEach.always` hook errored. -/
def runTest (env : TestEnv) (body : TestContext → Except String Unit) :
    TestReport :=
  let b := beforeEach env
  match b.ctx with
  | none =>
    let a := afterEachAlways none env.tearDownResult
    { outcome := .fail, bodyRan := false, created := b.created
      tornDown := a.tornDown, logs := a.logs, trace := b.trace }
  | some ctx =>
    let bodyRes := body ctx
    let a := afterEachAlways (some ctx.worker) env.tearDownResult
    let outcome := match bodyRes, a.err with
      | .ok _, none => Outcome.pass
      | _, _ => Outcome.fail
    { outcome := outcome, bodyRan := true, created := b.created
      tornDown := a.tornDown, logs := a.logs
      trace := b.trace ++ [.runBody, .tearDownCall ctx.worker] }

/-! ## Concrete payloads from the two test cases -/

/-- The payload of the `add_post` call in test "creates a new post". -/
def scenarioA : AddPostArgs :=
  { title := "Test", description := "Test Description"
    tags := "tag1,tag2,tag3", media := "post.png" }

/-- First payload of test "gets all posts". -/
def postB0 : AddPostArgs :=
  { title := "Test0", description := "Test Description0"
    tags := "tag1,tag2,tag3", media := "post.png" }

/-- Second payload of test "gets all posts". -/
def postB1 : AddPostArgs :=
  { title := "Test1", description := "Test Description1"
    tags := "tag4,tag5,tag6", media := "post.png" }

/-- Third payload of test "gets all posts". -/
def postB2 : AddPostArgs :=
  { title := "Test2", description := "Test Description2"
    tags := "tag1,tag5,tag7", media := "post.png" }

/-- The contract state after the three `add_post` calls of test
"gets all posts", starting from the fresh sandbox's empty state. -/
def stateB : List Post := addPosts [] [postB0, postB1, postB2]

/-- Issuing a sequence of `add_post` calls appends the corresponding
records in call order. -/
theorem addPosts_eq (st : List Post) (ps : List AddPostArgs) :
    addPosts st ps = st ++ ps.map mkPost := by
  induction ps generalizing st with
  | nil => simp [addPosts]
  | cons p ps ih =>
    show addPosts ((add_post st p).1) ps = _
    rw [ih]
    simp [add_post]

/-- C4: calling `add_post` with title "Test" and tags "tag1,tag2,tag3"
returns a record whose title is "Test" and whose tags collection's third
element is "tag3", from any contract state. -/
theorem add_post_scenario_a (st : List Post) :
    (add_post st scenarioA).2.title = "Test" ∧
    (add_post st scenarioA).2.tags[2]? = some "tag3" := by
  exact ⟨rfl, rfl⟩

/-- C5: after the three `add_post` calls with titles Test0/Test1/Test2,
`get_all_posts` returns a collection whose second entry's record has title
"Test1" and whose third entry's record has description
"Test Description2". -/
theorem get_all_posts_scenario_b :
    ((get_all_posts stateB)[1]?).map (fun e => e.2.title) = some "Test1" ∧
    ((get_all_posts stateB)[2]?).map (fun e => e.2.description) =
      some "Test Description2" := by
  decide

/-- C6: after any sequence of `add_post` calls on a fresh contract,
`get_all_posts` returns all of the added records, paired with their
indices, in the order they were added. -/
theorem get_all_posts_insertion_order (ps : List AddPostArgs) :
    (get_all_posts (addPosts [] ps)).map Prod.snd = ps.map mkPost ∧
    (get_all_posts (addPosts [] ps)).length = ps.length := by
  rw [addPosts_eq]
  simp [get_all_posts]

/-- C8 counterexample: the `tags` field supplied to `add_post` is not
returned unchanged — the supplied comma-separated string comes back as a
list of components — so not every supplied field round-trips verbatim. -/
theorem tags_not_returned_verbatim :
    (add_post [] scenarioA).2.fieldValue Field.tags ≠
      scenarioA.fieldValue Field.tags := by
  decide

/-- C8 (amended): every supplied field other than `tags` is returned
unchanged in the `add_post` result, the `tags` field is returned as the
comma-split components of the supplied string, and the full result record
is still found, unchanged, at its index by any later `get_all_posts` after
further `add_post` calls. -/
theorem round_trip_amended (st : List Post) (p : AddPostArgs)
    (ps : List AddPostArgs) (f : Field) (hf : f ≠ Field.tags) :
    (add_post st p).2.fieldValue f = p.fieldValue f ∧
    (add_post st p).2.fieldValue Field.tags =
      .strList (splitComma p.tags) ∧
    (get_all_posts (addPosts (add_post st p).1 ps))[st.length]? =
      some (st.length, (add_post st p).2) := by
  refine ⟨?_, rfl, ?_⟩
  · cases f with
    | tags => exact absurd rfl hf
    | title => rfl
    | description => rfl
    | media => rfl
  · rw [addPosts_eq]
    show (List.enum (st ++ [mkPost p] ++ List.map mkPost ps))[st.length]? = _
    rw [List.append_assoc, List.getElem?_enum,
        List.getElem?_append_right (Nat.le_refl _), Nat.sub_self]
    simp [add_post]

/-- Witness for the amended C8 at the concrete scenario-A payload. -/
theorem round_trip_amended_witness :
    (add_post [] scenarioA).2.fieldValue Field.title =
      scenarioA.fieldValue Field.title ∧
    (add_post [] scenarioA).2.fieldValue Field.tags =
      .strList (splitComma scenarioA.tags) ∧
    (get_all_posts (addPosts (add_post [] scenarioA).1 []))[
      (List.nil (α := Post)).length]? =
      some ((List.nil (α := Post)).length, (add_post [] scenarioA).2) :=
  round_trip_amended [] scenarioA [] Field.title (by decide)

/-! ## Concrete environments and bodies used as witnesses -/

/-- An environment where every external collaborator succeeds. -/
def envGood : TestEnv :=
  { initResult := .ok ⟨0⟩, createSubAccountResult := .ok ()
    deployResult := .ok (), tearDownResult := .ok ()
    argv := ["node", "ava", "contract.wasm"] }

/-- An environment where `deploy` rejects, so `beforeEach` fails after the
worker was created but before the context was saved. -/
def envDeployFails : TestEnv :=
  { envGood with deployResult := .error "deploy rejected" }

/-- An environment whose process argument vector has only two entries. -/
def envShortArgv : TestEnv :=
  { envGood with argv := ["node", "ava"] }

/-- A test body that succeeds. -/
def bodyOk : TestContext → Except String Unit := fun _ => .ok ()

/-- A test body that throws (or fails an assertion). -/
def bodyThrows : TestContext → Except String Unit :=
  fun _ => .error "assertion failed"

/-- The empty multiverse of sandbox states. -/
def gEmpty : SandboxStates := fun _ => []

/-- Whether an event is a sub-account creation. -/
def Event.isCreateSub : Event → Bool
  | .createSubAccount _ => true
  | _ => false

/-! ## Lifecycle theorems -/

/-- C1: when setup succeeded, `afterEach.always` calls `tearDown` on the
test's worker whether teardown succeeds or fails; a teardown failure is
caught and logged with the "Failed to stop the Sandbox:" message and the
test's outcome is exactly what it would have been had teardown succeeded,
for every test body. -/
theorem teardown_nonfatal (env : TestEnv)
    (body : TestContext → Except String Unit) (w : Worker) (e : String)
    (hinit : env.initResult = .ok w)
    (hsub : env.createSubAccountResult = .ok ())
    (hdep : env.deployResult = .ok ()) :
    (runTest { env with tearDownResult := .ok () } body).tornDown = [w] ∧
    (runTest { env with tearDownResult := .error e } body).tornDown = [w] ∧
    (runTest { env with tearDownResult := .error e } body).logs =
      ["Failed to stop the Sandbox: " ++ e] ∧
    (runTest { env with tearDownResult := .error e } body).outcome =
      (runTest { env with tearDownResult := .ok () } body).outcome := by
  simp [runTest, beforeEach, afterEachAlways, hinit, hsub, hdep]

/-- Witness for C1 at a concrete environment and a passing body. -/
theorem teardown_nonfatal_witness :
    (runTest { envGood with tearDownResult := .ok () } bodyOk).tornDown
      = [⟨0⟩] ∧
    (runTest { envGood with tearDownResult := .error "boom" } bodyOk).tornDown
      = [⟨0⟩] ∧
    (runTest { envGood with tearDownResult := .error "boom" } bodyOk).logs =
      ["Failed to stop the Sandbox: " ++ "boom"] ∧
    (runTest { envGood with tearDownResult := .error "boom" } bodyOk).outcome =
      (runTest { envGood with tearDownResult := .ok () } bodyOk).outcome :=
  teardown_nonfatal envGood bodyOk ⟨0⟩ "boom" rfl rfl rfl

/-- C2 counterexample: when `deploy` rejects, `beforeEach` fails after the
worker was created but before `t.context.worker` was assigned, so the
`afterEach.always` hook throws on the unset context and the created
worker's teardown is never attempted: one worker created, zero
teardowns. -/
theorem worker_not_torn_down_when_before_hook_fails :
    (runTest envDeployFails bodyOk).created = [⟨0⟩] ∧
    (runTest envDeployFails bodyOk).tornDown = [] := by
  constructor <;> rfl

/-- C2 (amended): when the `beforeEach` hook completes, exactly one worker
is created and exactly one teardown is attempted for every test body —
success, assertion failure, or thrown error; the amendment drops the path
where the hook itself fails, on which the created worker (if any) is not
torn down. -/
theorem one_worker_one_teardown (env : TestEnv)
    (body : TestContext → Except String Unit) (w : Worker)
    (hinit : env.initResult = .ok w)
    (hsub : env.createSubAccountResult = .ok ())
    (hdep : env.deployResult = .ok ()) :
    (runTest env body).created = [w] ∧ (runTest env body).tornDown = [w] := by
  cases htd : env.tearDownResult <;>
    simp [runTest, beforeEach, afterEachAlways, hinit, hsub, hdep, htd]

/-- Witness for the amended C2 at a concrete environment, with a throwing
body. -/
theorem one_worker_one_teardown_witness :
    (runTest envGood bodyThrows).created = [⟨0⟩] ∧
    (runTest envGood bodyThrows).tornDown = [⟨0⟩] :=
  one_worker_one_teardown envGood bodyThrows ⟨0⟩ rfl rfl rfl

/-- C3: with setup succeeding, a run's trace is exactly worker init,
sub-account creation, deploy, context save, test body, teardown — in
program order; when `Worker.init` or `deploy` errors, the body never runs
and the test case fails, the trace stopping at the failed step. -/
theorem setup_sequential_and_fatal (env : TestEnv)
    (body : TestContext → Except String Unit) (w : Worker) (e : String)
    (hinit : env.initResult = .ok w)
    (hsub : env.createSubAccountResult = .ok ()) :
    (runTest { env with deployResult := .ok () } body).trace =
      [.workerInit w, .createSubAccount subAccountName,
       .deploy contractAccountId (env.argv.get? 2), .saveContext,
       .runBody, .tearDownCall w] ∧
    (runTest { env with deployResult := .error e } body).bodyRan = false ∧
    (runTest { env with deployResult := .error e } body).outcome = .fail ∧
    (runTest { env with deployResult := .error e } body).trace =
      [.workerInit w, .createSubAccount subAccountName,
       .deploy contractAccountId (env.argv.get? 2)] ∧
    (runTest { env with initResult := .error e } body).bodyRan = false ∧
    (runTest { env with initResult := .error e } body).outcome = .fail := by
  refine ⟨?_, ?_, ?_, ?_, ?_, ?_⟩ <;>
    simp [runTest, beforeEach, afterEachAlways, hinit, hsub]

/-- Witness for C3 at a concrete environment and a passing body. -/
theorem setup_sequential_and_fatal_witness :
    (runTest { envGood with deployResult := .ok () } bodyOk).trace =
      [.workerInit ⟨0⟩, .createSubAccount subAccountName,
       .deploy contractAccountId (envGood.argv.get? 2), .saveContext,
       .runBody, .tearDownCall ⟨0⟩] ∧
    (runTest { envGood with deployResult := .error "bad binary" } bodyOk).bodyRan
      = false ∧
    (runTest { envGood with deployResult := .error "bad binary" } bodyOk).outcome
      = .fail ∧
    (runTest { envGood with deployResult := .error "bad binary" } bodyOk).trace =
      [.workerInit ⟨0⟩, .createSubAccount subAccountName,
       .deploy contractAccountId (envGood.argv.get? 2)] ∧
    (runTest { envGood with initResult := .error "bad binary" } bodyOk).bodyRan
      = false ∧
    (runTest { envGood with initResult := .error "bad binary" } bodyOk).outcome
      = .fail :=
  setup_sequential_and_fatal envGood bodyOk ⟨0⟩ "bad binary" rfl rfl

/-- C7: a mutating `add_post` issued through one worker never changes what
a read-all through a different worker returns (nor does starting a fresh
worker), and after two test cases each start their own worker and add
their own post, a read-all through the first returns exactly the first
test's record — never a record added by the other. -/
theorem isolation_between_tests (a b : Nat) (h : a ≠ b) (g : SandboxStates)
    (pa pb : AddPostArgs) :
    viewAllPosts (callAddPost g b pb) a = viewAllPosts g a ∧
    viewAllPosts (workerInitState g b) a = viewAllPosts g a ∧
    viewAllPosts
      (callAddPost
        (workerInitState (callAddPost (workerInitState g a) a pa) b) b pb)
      a = [(0, mkPost pa)] := by
  refine ⟨?_, ?_, ?_⟩ <;>
    simp [viewAllPosts, callAddPost, workerInitState, get_all_posts,
          add_post, h, List.enum]

/-- Witness for C7 with two concrete workers and concrete payloads. -/
theorem isolation_between_tests_witness :
    viewAllPosts (callAddPost gEmpty 1 postB1) 0 = viewAllPosts gEmpty 0 ∧
    viewAllPosts (workerInitState gEmpty 1) 0 = viewAllPosts gEmpty 0 ∧
    viewAllPosts
      (callAddPost
        (workerInitState (callAddPost (workerInitState gEmpty 0) 0 postB0) 1)
        1 postB1)
      0 = [(0, mkPost postB0)] :=
  isolation_between_tests 0 1 (by decide) gEmpty postB0 postB1

/-- C9: in a successful setup, exactly one sub-account is created; it is
named `test-account`, lives under the root account (its full id extends
and differs from the root id), and its creation precedes the deploy step
that targets it. -/
theorem sub_account_before_deploy (env : TestEnv)
    (body : TestContext → Except String Unit) (w : Worker)
    (hinit : env.initResult = .ok w)
    (hsub : env.createSubAccountResult = .ok ())
    (hdep : env.deployResult = .ok ()) :
    (runTest env body).trace[1]? = some (.createSubAccount subAccountName) ∧
    (runTest env body).trace[2]? =
      some (.deploy contractAccountId (env.argv.get? 2)) ∧
    (runTest env body).trace.countP Event.isCreateSub = 1 ∧
    contractAccountId = subAccountName ++ "." ++ rootAccountId ∧
    contractAccountId ≠ rootAccountId := by
  have htr : (runTest env body).trace =
      [.workerInit w, .createSubAccount subAccountName,
       .deploy contractAccountId (env.argv.get? 2), .saveContext,
       .runBody, .tearDownCall w] := by
    simp [runTest, beforeEach, afterEachAlways, hinit, hsub, hdep]
  rw [htr]
  refine ⟨rfl, rfl, ?_, rfl, by decide⟩
  simp [List.countP, List.countP.go, Event.isCreateSub]

/-- Witness for C9 at a concrete environment and a passing body. -/
theorem sub_account_before_deploy_witness :
    (runTest envGood bodyOk).trace[1]? =
      some (.createSubAccount subAccountName) ∧
    (runTest envGood bodyOk).trace[2]? =
      some (.deploy contractAccountId (envGood.argv.get? 2)) ∧
    (runTest envGood bodyOk).trace.countP Event.isCreateSub = 1 ∧
    contractAccountId = subAccountName ++ "." ++ rootAccountId ∧
    contractAccountId ≠ rootAccountId :=
  sub_account_before_deploy envGood bodyOk ⟨0⟩ rfl rfl rfl

/-- C10: the deploy step receives exactly `argv.get? 2`, unvalidated; when
the process argument vector has fewer than three entries, deploy is still
invoked — with the undefined path — rather than the hook failing with a
harness-level error first. -/
theorem deploy_path_from_argv (env : TestEnv) (w : Worker)
    (hinit : env.initResult = .ok w)
    (hsub : env.createSubAccountResult = .ok ()) :
    Event.deploy contractAccountId (env.argv.get? 2) ∈
      (beforeEach env).trace ∧
    (env.argv.length < 3 →
      Event.deploy contractAccountId none ∈ (beforeEach env).trace) := by
  have hmem : Event.deploy contractAccountId (env.argv.get? 2) ∈
      (beforeEach env).trace := by
    cases hdep : env.deployResult <;>
      simp [beforeEach, hinit, hsub, hdep]
  refine ⟨hmem, fun hlen => ?_⟩
  have hnone : env.argv.get? 2 = none := by
    rw [List.get?_eq_none]
    omega
  rwa [hnone] at hmem

/-- Witness for C10 at an environment whose argv has two entries. -/
theorem deploy_path_from_argv_witness :
    Event.deploy contractAccountId none ∈ (beforeEach envShortArgv).trace :=
  (deploy_path_from_argv envShortArgv ⟨0⟩ rfl rfl).2 (by decide)

end SocialNetworkDemo
